import Mathlib

/-!
Verification of the PDF ingestion/structuring pipeline
(`ai_processor.py`, `database.py`, `pdf_processor.py`).

The Python code manipulates JSON-like dynamically typed values, so the
embedding models them with an explicit `PyVal` type together with Python's
dict operations (insertion-ordered association lists, `get`, key assignment,
`update`), Python truthiness, and Python `str.strip`.  The external
language-model call made by `AIProcessor.structure_text` is modelled as an
oracle outcome: either one of the exception kinds the code catches
(`openai.AuthenticationError`, `openai.RateLimitError`, `openai.APIError`,
any other exception) or a returned reply whose JSON parse either fails or
yields a JSON object with given fields.  Logging calls are omitted except
where they can raise (slicing or joining a non-sliceable value), which is
modelled explicitly; a run that would raise an uncaught exception is
represented by `Option.none`.
-/

/-- A dynamically typed Python/JSON value, as passed around by
`ai_processor.py` and stored in MongoDB documents. -/
inductive PyVal where
  | str : String → PyVal
  | int : Int → PyVal
  | bool : Bool → PyVal
  | none : PyVal
  | list : List PyVal → PyVal
  | dict : List (String × PyVal) → PyVal

/-- A Python dict with string keys: an insertion-ordered association list. -/
abbrev PyDict := List (String × PyVal)

/-- Python `d.get(k)` / `k in d`: first (only) binding of `k`, if present. -/
def dictGet (d : PyDict) (k : String) : Option PyVal :=
  (d.find? (fun kv => kv.1 = k)).map (fun kv => kv.2)

/-- Python `d.get(k, v0)`. -/
def dictGetD (d : PyDict) (k : String) (v0 : PyVal) : PyVal :=
  (dictGet d k).getD v0

/-- Python `d[k] = v`: overwrite in place if `k` is present (keeping its
position, as CPython dicts do), else append a new binding. -/
def dictSet (d : PyDict) (k : String) (v : PyVal) : PyDict :=
  match d with
  | [] => [(k, v)]
  | (k', v') :: rest =>
      if k' = k then (k', v) :: rest else (k', v') :: dictSet rest k v

/-- Python `base.update(inc)`: assign every binding of `inc` into `base`. -/
def dictUpdate (base inc : PyDict) : PyDict :=
  inc.foldl (fun acc kv => dictSet acc kv.1 kv.2) base

/-- Python truthiness for the modelled values. -/
def PyVal.truthy : PyVal → Bool
  | .str s => !s.isEmpty
  | .int n => n != 0
  | .bool b => b
  | .none => false
  | .list l => !l.isEmpty
  | .dict d => !d.isEmpty

/-- The characters removed by Python `str.strip()` (ASCII whitespace:
space, tab, newline, carriage return, vertical tab, form feed). -/
def isPySpace (c : Char) : Bool :=
  c.toNat = 32 || c.toNat = 9 || c.toNat = 10 || c.toNat = 13 ||
  c.toNat = 11 || c.toNat = 12

/-- Python `s.strip()` on a character list. -/
def pyStrip (l : List Char) : List Char :=
  ((l.dropWhile isPySpace).reverse.dropWhile isPySpace).reverse

/-- Python `s.strip()` on a `String`. -/
def pyStripS (s : String) : String :=
  String.mk (pyStrip s.data)

/-! ## StructuringEngine: `AIProcessor.structure_text` (ai_processor.py) -/

/-- The required top-level keys checked by `AIProcessor._validate_structure`
(ai_processor.py line 54). -/
def requiredKeys : List String :=
  ["summary", "keywords", "sections", "measurements", "key_fields", "tables"]

/-- Model of `AIProcessor._get_default_structure` (ai_processor.py lines 40-50). -/
def default_structure : PyDict :=
  [("summary", .str ""), ("keywords", .list []), ("sections", .list []),
   ("measurements", .list []), ("key_fields", .dict []), ("tables", .list []),
   ("processing_status", .str "failed")]

/-- The default structure with `processing_status` reassigned, as done in
every fallback branch of `structure_text`. -/
def defaultTagged (tag : String) : PyDict :=
  dictSet default_structure "processing_status" (.str tag)

/-- Model of `AIProcessor._validate_structure` (ai_processor.py lines 52-55): all six
required keys are present.  Key presence only — value types are not checked. -/
def validate_structure (d : PyDict) : Bool :=
  requiredKeys.all (fun k => (dictGet d k).isSome)

/-- The JSON parse of the (markdown-stripped) reply of the external call:
either a parse failure (`json.JSONDecodeError`) or a JSON object with the
given fields. -/
inductive ParsedReply where
  | parseError : ParsedReply
  | obj : PyDict → ParsedReply

/-- Outcome of one external structuring call, as distinguished by the
`try/except` chain of `structure_text` (ai_processor.py lines 117-198). -/
inductive CallOutcome where
  | ok : ParsedReply → CallOutcome
  | authError : CallOutcome
  | rateLimitError : CallOutcome
  | apiError : CallOutcome
  | otherError : CallOutcome

/-- The elision marker inserted by the truncation step of `structure_text`
(ai_processor.py line 90). -/
def elisionMarker : List Char :=
  "\n\n[...middle content truncated...]\n\n".data

/-- The text `structure_text` sends downstream (ai_processor.py lines 83-90)
at the default budget `max_chars = 8000` (the only configuration used by the
code: `process_document` calls `structure_text(raw_text)`).  In CPython,
`int(8000 * 0.7) = 5600` and `int(8000 * 0.3) = 2400` under IEEE-754 double
arithmetic; `raw_text[:5600]` is `take 5600` and `raw_text[-2400:]` is
`drop (length - 2400)` for texts longer than 2400 characters. -/
def text_to_process (rawText : List Char) : List Char :=
  if rawText.length > 8000 then
    rawText.take 5600 ++ elisionMarker ++ rawText.drop (rawText.length - 2400)
  else rawText

/-- Model of `AIProcessor.structure_text` (ai_processor.py lines 57-198), modelled
over the call-outcome oracle.  `apiOk` is whether `self.api_key` and
`self.client` are both configured. -/
def structure_text (apiOk : Bool) (rawText : List Char) (outcome : CallOutcome) :
    PyDict :=
  if !apiOk then defaultTagged "no_api_key"
  else if rawText.isEmpty || (pyStrip rawText).isEmpty then
    defaultTagged "empty_text"
  else
    match outcome with
    | .ok .parseError => defaultTagged "json_error"
    | .ok (.obj d) =>
        if validate_structure d then dictSet d "processing_status" (.str "success")
        else dictSet (dictUpdate default_structure d) "processing_status"
          (.str "partial_success")
    | .authError => defaultTagged "auth_error"
    | .rateLimitError => defaultTagged "rate_limit_error"
    | .apiError => defaultTagged "api_error"
    | .otherError => defaultTagged "unknown_error"

/-! ## Document summarizer: `AIProcessor.generate_document_summary` -/

/-- Outcome of the external document-summary call (ai_processor.py lines
351-364): a returned reply text, or any exception. -/
inductive SummOutcome where
  | ok : String → SummOutcome
  | failure : SummOutcome

/-- The context string built from the page summaries (ai_processor.py lines
333-338), including the fixed-size 6000+6000 truncation. -/
def summary_context (summaries : List String) : List Char :=
  let ctx := (String.intercalate "\n\n"
    (summaries.enum.map
      (fun p => "Page " ++ toString (p.1 + 1) ++ ": " ++ p.2))).data
  if ctx.length > 12000 then
    ctx.take 6000 ++ "\n\n[...intermediate pages omitted...]\n\n".data ++
      ctx.drop (ctx.length - 6000)
  else ctx

/-- Model of `AIProcessor.generate_document_summary` (ai_processor.py lines 322-366).
Returns the summary string together with whether the external call was made.
The source annotates the argument as `List[str]`. -/
def generate_document_summary (summaries : List String) (outcome : SummOutcome) :
    String × Bool :=
  match summaries with
  | [] => ("", false)
  | [s] => (s, false)
  | s1 :: _ :: _ =>
      match outcome with
      | .ok content => (pyStripS content, true)
      | .failure =>
          ("Document with " ++ toString summaries.length ++ " pages. " ++ s1, true)

/-! ## Document-level keyword dedup: `AIProcessor._update_document_metadata` -/

/-- Python `list(dict.fromkeys(l))`: deduplicate keeping the first
occurrence of each element, in insertion order (CPython dicts are
insertion-ordered and `fromkeys` keeps the first position of a repeated
key). -/
def fromKeysList {α : Type} [DecidableEq α] (l : List α) : List α :=
  l.foldl (fun acc a => if a ∈ acc then acc else acc ++ [a]) []

/-- The keyword aggregation of `AIProcessor._update_document_metadata`
(ai_processor.py line 383): `list(dict.fromkeys(all_keywords))[:30]`. -/
def unique_keywords {α : Type} [DecidableEq α] (l : List α) : List α :=
  (fromKeysList l).take 30

/-! ## TextExtractionGate: `PDFProcessor._needs_ocr` / `is_text_scannable` -/

/-- The sampling loop of `_needs_ocr` (pdf_processor.py lines 122-129):
scan the first `n` page texts, returning `true` at the first page whose
stripped text has fewer than 50 characters. -/
def scanPages : List (List Char) → Nat → Bool
  | _, 0 => false
  | [], _ + 1 => false
  | t :: ts, n + 1 =>
      if (pyStrip t).length < 50 then true else scanPages ts n

/-- Model of `PDFProcessor._needs_ocr` (pdf_processor.py lines 110-136).  Opening and
inspecting the document is modelled as an oracle: `Option.none` when
`fitz.open`/page inspection raises (the `except` branch returns `True`),
otherwise the list of per-page extracted texts.  The loop samples
`min(3, len(doc))` pages. -/
def needs_ocr (pagesOfDoc : Option (List (List Char))) : Bool :=
  match pagesOfDoc with
  | Option.none => true
  | Option.some texts => scanPages texts (min 3 texts.length)

/-- Model of `PDFProcessor.is_text_scannable` (pdf_processor.py lines 201-205). -/
def is_text_scannable (textLength : Nat) (threshold : Nat) : Bool :=
  textLength < threshold

/-! ## Page records and the storage collaborator (database.py) -/

/-- One record of the `pages` collection, with the fields the core logic
reads and writes.  `page_summary`, `keywords` and `structured_data` hold
whatever values were last persisted, hence `PyVal`. -/
structure Page where
  page_num : Nat
  raw_text : List Char
  status : String
  page_summary : PyVal
  keywords : PyVal
  structured_data : PyVal

/-- Model of `MongoDBManager.update_page_data` (database.py lines 332-369) as a pure
page transformation: `$set` of the three payload fields plus
`status = "structured"` (and `updated_at`, not modelled).  Both call sites
pass all three payload arguments, so the `is not None` guards all fire.
The page exists and `updated_at` always changes, so `modified_count > 0`
and the source returns `True`. -/
def update_page_data (p : Page) (sd ps kw : PyVal) : Page :=
  Page.mk p.page_num p.raw_text "structured" ps kw sd

/-! ## AggregationEngine: `MongoDBManager.create_document_structure` -/

/-- The document-level aggregate built by `create_document_structure`
(database.py lines 447-504); only the four merged fields are modelled (the
other fields of `unified_doc` are copied metadata). -/
structure Unified where
  all_sections : List PyVal
  all_measurements : List PyVal
  all_key_fields : PyDict
  all_tables : List PyVal

/-- The body of the page loop of `create_document_structure` (database.py
lines 475-498): skip (`continue`) when `structured_data` is falsy or not a
dict; otherwise extend each list aggregate when the corresponding field is a
list, and `update` the key-field aggregate when `key_fields` is a dict. -/
def aggStep (u : Unified) (p : Page) : Unified :=
  match p.structured_data with
  | .dict d =>
      if d.isEmpty then u
      else
        let u1 := match dictGetD d "sections" (.list []) with
          | .list l => Unified.mk (u.all_sections ++ l) u.all_measurements
              u.all_key_fields u.all_tables
          | _ => u
        let u2 := match dictGetD d "measurements" (.list []) with
          | .list l => Unified.mk u1.all_sections (u1.all_measurements ++ l)
              u1.all_key_fields u1.all_tables
          | _ => u1
        let u3 := match dictGetD d "key_fields" (.dict []) with
          | .dict kf => Unified.mk u2.all_sections u2.all_measurements
              (dictUpdate u2.all_key_fields kf) u2.all_tables
          | _ => u2
        match dictGetD d "tables" (.list []) with
          | .list l => Unified.mk u3.all_sections u3.all_measurements
              u3.all_key_fields (u3.all_tables ++ l)
          | _ => u3
  | _ => u

/-- The page ordering used by `create_document_structure`: it reads pages
through `get_document_details` (database.py line 429), which sorts the
`pages` collection by `page_num` ascending. -/
def sortPages (pages : List Page) : List Page :=
  pages.mergeSort (fun a b => a.page_num ≤ b.page_num)

/-- Model of `MongoDBManager.create_document_structure` (database.py lines 447-504):
fold the aggregation step over the pages in ascending `page_num` order,
starting from empty aggregates. -/
def create_document_structure (pages : List Page) : Unified :=
  (sortPages pages).foldl aggStep (Unified.mk [] [] [] [])

/-! ## PipelineOrchestrator: `AIProcessor.process_document` -/

/-- The per-page skip condition of the batch loop (ai_processor.py line 247):
`page.get("status") == "structured" and page.get("page_summary")`. -/
def skip_rule (p : Page) : Bool :=
  p.status == "structured" && p.page_summary.truthy

/-- Python iteration of a value by `list.extend` (ai_processor.py lines 257
and 308): lists yield their elements, strings their characters (as one-char
strings), dicts their keys; other values raise `TypeError`. -/
def pyIterElems : PyVal → Option (List PyVal)
  | .list l => Option.some l
  | .str s => Option.some (s.data.map (fun c => .str (String.mk [c])))
  | .dict d => Option.some (d.map (fun kv => .str kv.1))
  | _ => Option.none

/-- Whether Python slicing `v[:n]` is defined for the value (used by the
log lines at ai_processor.py lines 289-291; slicing a non-sequence raises). -/
def pySliceable : PyVal → Bool
  | .str _ => true
  | .list _ => true
  | _ => false

/-- Whether `", ".join(v[:5])` (ai_processor.py line 291) runs without
raising: `v` must slice and the joined elements must all be strings. -/
def pyJoinOk : PyVal → Bool
  | .str _ => true
  | .list l => (l.take 5).all (fun v => match v with | .str _ => true | _ => false)
  | _ => false

/-- Accumulated state of the batch loop over pages: the pages as persisted
so far, `all_summaries`, `all_keywords`, and (instrumentation) the numbers
of the pages that were submitted to `structure_text`. -/
structure BatchAcc where
  pages : List Page
  summaries : List PyVal
  kwords : List PyVal
  submitted : List Nat

/-- One iteration of the batch loop of `process_document` (ai_processor.py
lines 240-308) for page `p`.  `Option.none` models a `TypeError` raised by
the logging slice/join or by `all_keywords.extend` on a non-iterable value
(none of these are caught inside `process_document`). -/
def stepPage (oracle : Nat → CallOutcome) (a : BatchAcc) (p : Page) : Option BatchAcc :=
  if skip_rule p then
    let a1 := BatchAcc.mk (a.pages ++ [p])
      (if p.page_summary.truthy then a.summaries ++ [p.page_summary]
       else a.summaries)
      a.kwords a.submitted
    if p.keywords.truthy then
      match pyIterElems p.keywords with
      | Option.some els =>
          Option.some (BatchAcc.mk a1.pages a1.summaries (a1.kwords ++ els) a1.submitted)
      | Option.none => Option.none
    else Option.some a1
  else
    let sd := structure_text true p.raw_text (oracle p.page_num)
    let ps := dictGetD sd "summary" (.str "")
    let kw := dictGetD sd "keywords" (.list [])
    if ps.truthy && !pySliceable ps then Option.none
    else if kw.truthy && !pyJoinOk kw then Option.none
    else
      match pyIterElems kw with
      | Option.none => Option.none
      | Option.some els =>
          Option.some (BatchAcc.mk
            (a.pages ++ [update_page_data p (.dict sd) ps kw])
            (a.summaries ++ [ps])
            (a.kwords ++ els)
            (a.submitted ++ [p.page_num]))

/-- The result of one `process_document` run: the pages as left in the
database, the collected `all_summaries` and `all_keywords` (the inputs the
document-metadata build receives when invoked), which pages were submitted
to the structuring call, and whether the document-level metadata build
(`_update_document_metadata`, guarded by `if all_summaries:` at
ai_processor.py line 311) was invoked. -/
structure RunResult where
  pages : List Page
  summaries : List PyVal
  kwords : List PyVal
  submitted : List Nat
  metadataInvoked : Bool

/-- The sentinel summary written when no credential is configured
(ai_processor.py line 223). -/
def noKeySummary : String := "[No API key - processing skipped]"

/-- The page update applied to every page when no credential is configured
(ai_processor.py lines 218-225): persist the plain default structure (whose
`processing_status` is `"failed"`), the sentinel summary, and `[]`. -/
def no_key_page (p : Page) : Page :=
  update_page_data p (.dict default_structure) (.str noKeySummary) (.list [])

/-- Model of `AIProcessor.process_document` (ai_processor.py lines 200-320), modelled
over the per-page call-outcome oracle (indexed by `page_num`).  `apiOk` is
whether a credential and client are configured; the input `pages` list is
`get_raw_text(doc_id)`, already sorted by `page_num`.  Persistence always
succeeds (the pages exist and `updated_at` always changes, so
`update_page_data` returns `True`; see its model above). -/
def process_document (apiOk : Bool) (oracle : Nat → CallOutcome)
    (pages : List Page) : Option RunResult :=
  if !apiOk then
    Option.some (RunResult.mk (pages.map no_key_page) [] [] [] false)
  else if pages.isEmpty then
    Option.some (RunResult.mk [] [] [] [] false)
  else
    (pages.foldl (fun acc p => acc.bind (fun a => stepPage oracle a p))
      (Option.some (BatchAcc.mk [] [] [] []))).map
      (fun a => RunResult.mk a.pages a.summaries a.kwords a.submitted
        (!a.summaries.isEmpty))

/-- The claim's notion of a schema-correct structure, following the spec's
words (section 8, "output schema is total"): the six required keys are
present with the correct container type each (string summary, list
keywords/sections/measurements/tables, mapping key_fields). -/
def specSchemaOk (d : PyDict) : Bool :=
  (match dictGet d "summary" with
   | Option.some (.str _) => true | _ => false) &&
  (match dictGet d "keywords" with
   | Option.some (.list _) => true | _ => false) &&
  (match dictGet d "sections" with
   | Option.some (.list _) => true | _ => false) &&
  (match dictGet d "measurements" with
   | Option.some (.list _) => true | _ => false) &&
  (match dictGet d "key_fields" with
   | Option.some (.dict _) => true | _ => false) &&
  (match dictGet d "tables" with
   | Option.some (.list _) => true | _ => false)

/-- Whether the call outcome is a reply that parsed as a JSON object. -/
def outcomeIsParsedObj : CallOutcome → Bool
  | .ok (.obj _) => true
  | _ => false

/-- A parsed reply that contains all six required keys (so it validates and
is returned tagged success) but with wrong container types and an extra
key. -/
def illTypedReply : PyDict :=
  [("summary", .int 1), ("keywords", .str "k"), ("sections", .dict []),
   ("measurements", .int 2), ("key_fields", .list []), ("tables", .int 3),
   ("extra", .int 4)]

/-- The skip condition of the aggregation loop (database.py line 477):
`not s_data or not isinstance(s_data, dict)` — the page lacks structured
data (falsy value, e.g. the `{}` written at ingestion) or holds a non-dict
value. -/
def lacksRecord : PyVal → Bool
  | .dict d => d.isEmpty
  | _ => true

/-- The claim's notion of a well-formed structured record, following the
spec's data model (section 3): a non-empty mapping whose `sections`,
`measurements`, `tables` fields (defaulting to `[]`) are lists and whose
`key_fields` field (defaulting to `{}`) is a mapping. -/
def well_formed_record : PyVal → Bool
  | .dict d =>
      !d.isEmpty &&
      (match dictGetD d "sections" (.list []) with
        | .list _ => true | _ => false) &&
      (match dictGetD d "measurements" (.list []) with
        | .list _ => true | _ => false) &&
      (match dictGetD d "key_fields" (.dict []) with
        | .dict _ => true | _ => false) &&
      (match dictGetD d "tables" (.list []) with
        | .list _ => true | _ => false)
  | _ => false

/-- The `sections` list of a structured record (empty for other values). -/
def sdSections : PyVal → List PyVal
  | .dict d => match dictGetD d "sections" (.list []) with
      | .list l => l | _ => []
  | _ => []

/-- The `measurements` list of a structured record. -/
def sdMeasurements : PyVal → List PyVal
  | .dict d => match dictGetD d "measurements" (.list []) with
      | .list l => l | _ => []
  | _ => []

/-- The `tables` list of a structured record. -/
def sdTables : PyVal → List PyVal
  | .dict d => match dictGetD d "tables" (.list []) with
      | .list l => l | _ => []
  | _ => []

/-- The `key_fields` mapping of a structured record. -/
def sdKeyFields : PyVal → PyDict
  | .dict d => match dictGetD d "key_fields" (.dict []) with
      | .dict kf => kf | _ => []
  | _ => []

/-- A concrete page whose structured record carries one `key_fields`
binding for `invoice_date`. -/
def invoicePage (n : Nat) (v : String) : Page :=
  Page.mk n [] "structured" (.str "s") (.list [])
    (.dict [("sections", .list []), ("measurements", .list []),
      ("key_fields", .dict [("invoice_date", .str v)]), ("tables", .list [])])

/-- A concrete page whose structured record is a non-empty dict that is not
well formed: its `sections` field is an integer while its `measurements`
field is a proper list. -/
def mixedPage : Page :=
  Page.mk 5 [] "structured" (.str "") (.list [])
    (.dict [("sections", .int 5), ("measurements", .list [.str "m"])])

/-- The page state after one loop iteration of `process_document`: a skipped
page is untouched; a processed page is persisted with the structuring
result, its extracted summary and keywords. -/
def page_transform (oracle : Nat → CallOutcome) (p : Page) : Page :=
  if skip_rule p then p
  else
    let sd := structure_text true p.raw_text (oracle p.page_num)
    update_page_data p (.dict sd) (dictGetD sd "summary" (.str ""))
      (dictGetD sd "keywords" (.list []))

/-- The entries page `p` contributes to `all_summaries`: its stored summary
when skipped (necessarily truthy, by the skip rule), and the extracted
summary — even when empty — when processed and saved. -/
def summary_contrib (oracle : Nat → CallOutcome) (p : Page) : List PyVal :=
  if skip_rule p then [p.page_summary]
  else [dictGetD (structure_text true p.raw_text (oracle p.page_num))
    "summary" (.str "")]

/-- The entries page `p` contributes to `all_keywords`. -/
def keyword_contrib (oracle : Nat → CallOutcome) (p : Page) : List PyVal :=
  if skip_rule p then
    (if p.keywords.truthy then (pyIterElems p.keywords).getD [] else [])
  else (pyIterElems (dictGetD (structure_text true p.raw_text (oracle p.page_num))
    "keywords" (.list []))).getD []

/-- The structuring-call submissions page `p` causes: none when skipped. -/
def submit_contrib (p : Page) : List Nat :=
  if skip_rule p then [] else [p.page_num]

/-- A parsed reply with summary "S1" and all six keys correctly shaped. -/
def c3ReplyS1 : PyDict :=
  [("summary", .str "S1"), ("keywords", .list []), ("sections", .list []),
   ("measurements", .list []), ("key_fields", .dict []), ("tables", .list [])]

/-- A raw page whose structuring call will succeed with summary "S1". -/
def c3PageOne : Page := Page.mk 1 "alpha".data "raw" (.str "") (.list []) (.dict [])

/-- A raw page whose structuring call will fail with a rate-limit error. -/
def c3PageTwo : Page := Page.mk 2 "beta".data "raw" (.str "") (.list []) (.dict [])

/-- Oracle: page 1 succeeds with `c3ReplyS1`, every other page hits the
rate limit. -/
def c3Oracle : Nat → CallOutcome :=
  fun n => if n = 1 then .ok (.obj c3ReplyS1) else .rateLimitError

/-- The run result of processing the single failing page `c3PageTwo`. -/
def c3Run : RunResult :=
  RunResult.mk
    [update_page_data c3PageTwo (.dict (defaultTagged "rate_limit_error"))
      (.str "") (.list [])]
    [.str ""] [] [2] true

/-- A page already structured with a non-empty summary (skip-eligible). -/
def c4PageDone : Page :=
  Page.mk 1 "alpha".data "structured" (.str "S1") (.list []) (.dict [])

/-- A page marked structured but with an empty summary (retried). -/
def c4PageEmpty : Page :=
  Page.mk 2 "beta".data "structured" (.str "") (.list []) (.dict [])

/-- Oracle for the C4 witness run: every call fails authentication. -/
def c4Oracle : Nat → CallOutcome := fun _ => .authError

/-- The run result of the C4 witness run. -/
def c4Run : RunResult :=
  RunResult.mk
    [c4PageDone,
     update_page_data c4PageEmpty (.dict (defaultTagged "auth_error"))
       (.str "") (.list [])]
    [.str "S1", .str ""] [] [2] true

/-- A single raw page for the C10 witness run. -/
def c10Page : Page := Page.mk 1 "gamma".data "raw" (.str "") (.list []) (.dict [])

/-- The result of the credential-less run over `[c10Page]`. -/
def c10Run1 : RunResult :=
  RunResult.mk [no_key_page c10Page] [] [] [] false

/-- The result of the follow-up run (credential configured) over the pages
left by the credential-less run: every page is skipped. -/
def c10Run2 : RunResult :=
  RunResult.mk [no_key_page c10Page] [.str noKeySummary] [] [] true

/-! ## Theorems -/

theorem dictGet_nil (k : String) : dictGet [] k = Option.none := by
  simp [dictGet, List.find?]

theorem dictGet_cons (k0 : String) (v0 : PyVal) (rest : PyDict) (k : String) :
    dictGet ((k0, v0) :: rest) k =
      if k0 = k then Option.some v0 else dictGet rest k := by
  by_cases h : k0 = k <;> simp [dictGet, List.find?, h]

theorem dictGet_dictSet (d : PyDict) (k k' : String) (v : PyVal) :
    dictGet (dictSet d k v) k' = if k' = k then Option.some v else dictGet d k' := by
  induction d with
  | nil =>
      rw [dictSet, dictGet_cons, dictGet_nil]
      by_cases h : k = k'
      · subst h; simp
      · have h' : ¬ k' = k := fun e => h e.symm
        simp [h, h']
  | cons kv rest ih =>
      obtain ⟨k0, v0⟩ := kv
      rw [dictSet]
      by_cases h0 : k0 = k
      · subst h0
        rw [if_pos rfl, dictGet_cons, dictGet_cons]
        by_cases h1 : k0 = k'
        · subst h1; simp
        · have h1' : ¬ k' = k0 := fun e => h1 e.symm
          simp [h1, h1']
      · rw [if_neg h0, dictGet_cons, dictGet_cons, ih]
        by_cases h1 : k0 = k'
        · subst h1
          simp [h0]
        · simp [h1]

theorem dictGet_isSome_dictSet (d : PyDict) (k k' : String) (v : PyVal)
    (h : (dictGet d k').isSome = true) :
    (dictGet (dictSet d k v) k').isSome = true := by
  rw [dictGet_dictSet]
  by_cases h1 : k' = k <;> simp [h1, h]

theorem dictGet_isSome_dictUpdate (base inc : PyDict) (k : String)
    (h : (dictGet base k).isSome = true) :
    (dictGet (dictUpdate base inc) k).isSome = true := by
  induction inc generalizing base with
  | nil => exact h
  | cons kv rest ih =>
      exact ih (dictSet base kv.1 kv.2) (dictGet_isSome_dictSet _ _ _ _ h)

theorem validate_dictSet (d : PyDict) (k : String) (v : PyVal)
    (h : validate_structure d = true) :
    validate_structure (dictSet d k v) = true := by
  simp only [validate_structure, requiredKeys, List.all_cons, List.all_nil,
    Bool.and_eq_true] at h ⊢
  obtain ⟨h1, h2, h3, h4, h5, h6, _⟩ := h
  refine ⟨?_, ?_, ?_, ?_, ?_, ?_, trivial⟩ <;>
    exact dictGet_isSome_dictSet _ _ _ _ (by assumption)

theorem validate_merge (d : PyDict) :
    validate_structure (dictUpdate default_structure d) = true := by
  simp only [validate_structure, requiredKeys, List.all_cons, List.all_nil,
    Bool.and_eq_true]
  refine ⟨?_, ?_, ?_, ?_, ?_, ?_, trivial⟩ <;>
    exact dictGet_isSome_dictUpdate _ _ _ (by rfl)

theorem defaultTagged_eq (t : String) :
    defaultTagged t =
      [("summary", .str ""), ("keywords", .list []), ("sections", .list []),
       ("measurements", .list []), ("key_fields", .dict []),
       ("tables", .list []), ("processing_status", .str t)] := rfl

theorem specSchemaOk_defaultTagged (t : String) :
    specSchemaOk (defaultTagged t) = true := rfl

theorem validate_defaultTagged (t : String) :
    validate_structure (defaultTagged t) = true := rfl

/-- C1 counterexample: when the external reply parses as JSON with all six
required keys present, `structure_text` returns it as-is tagged `success`
without checking value types; the result can violate the claimed container
types and carry extra keys. -/
theorem structure_text_success_schema_counterexample :
    specSchemaOk (structure_text true "hello".data
      (.ok (.obj illTypedReply))) = false ∧
    dictGet (structure_text true "hello".data (.ok (.obj illTypedReply)))
      "processing_status" = Option.some (.str "success") ∧
    dictGet (structure_text true "hello".data (.ok (.obj illTypedReply)))
      "extra" = Option.some (.int 4) ∧
    dictGet (structure_text true "hello".data (.ok (.obj illTypedReply)))
      "summary" = Option.some (.int 1) := by
  refine ⟨rfl, rfl, rfl, rfl⟩

/-- C1 (amended): for every input and outcome, `structure_text` returns a
structure containing the six required keys; whenever the outcome is NOT a
reply that parsed as a JSON object (i.e. in every default/fallback path),
the six keys additionally have the correct container types.  In the
parsed-object paths the reply's values are kept as-is (tagged `success`
when all six keys are present, merged over the defaults and tagged
`partial_success` otherwise), so their types are whatever the reply had. -/
theorem structure_text_schema_presence
    (apiOk : Bool) (rawText : List Char) (outcome : CallOutcome) :
    validate_structure (structure_text apiOk rawText outcome) = true ∧
    (outcomeIsParsedObj outcome = false →
      specSchemaOk (structure_text apiOk rawText outcome) = true) := by
  unfold structure_text
  by_cases hapi : apiOk
  · simp only [hapi, Bool.not_true, Bool.false_eq_true, if_false]
    by_cases hempty : (rawText.isEmpty || (pyStrip rawText).isEmpty) = true
    · simp only [hempty, if_true]
      exact ⟨validate_defaultTagged _, fun _ => specSchemaOk_defaultTagged _⟩
    · simp only [hempty, if_false]
      match outcome with
      | .ok .parseError =>
          exact ⟨validate_defaultTagged _, fun _ => specSchemaOk_defaultTagged _⟩
      | .ok (.obj d) =>
          refine ⟨?_, fun h => by simp [outcomeIsParsedObj] at h⟩
          by_cases hv : validate_structure d = true
          · simp only [hv, if_true]
            exact validate_dictSet _ _ _ hv
          · simp only [hv, if_false]
            exact validate_dictSet _ _ _ (validate_merge d)
      | .authError =>
          exact ⟨validate_defaultTagged _, fun _ => specSchemaOk_defaultTagged _⟩
      | .rateLimitError =>
          exact ⟨validate_defaultTagged _, fun _ => specSchemaOk_defaultTagged _⟩
      | .apiError =>
          exact ⟨validate_defaultTagged _, fun _ => specSchemaOk_defaultTagged _⟩
      | .otherError =>
          exact ⟨validate_defaultTagged _, fun _ => specSchemaOk_defaultTagged _⟩
  · simp only [Bool.not_eq_true] at hapi
    simp only [hapi, Bool.not_false, if_true]
    exact ⟨validate_defaultTagged _, fun _ => specSchemaOk_defaultTagged _⟩

/-- Witness for the amended C1 theorem at a concrete failure outcome. -/
theorem structure_text_schema_presence_witness :
    validate_structure (structure_text true "hi".data .authError) = true ∧
    specSchemaOk (structure_text true "hi".data .authError) = true :=
  ⟨(structure_text_schema_presence true "hi".data .authError).1,
   (structure_text_schema_presence true "hi".data .authError).2 rfl⟩

/-- C2: every failure mode of the external structuring call, and every parse
failure, is absorbed by `structure_text` into the default empty structure
carrying the corresponding diagnostic tag.  (`structure_text` is a total
function of the outcome oracle — in the model it cannot raise by
construction, mirroring the `try/except` chain that catches
`AuthenticationError`, `RateLimitError`, `APIError`, every other
`Exception`, and `json.JSONDecodeError` at ai_processor.py lines 137-198.) -/
theorem structure_text_absorbs_failures
    (rawText : List Char) (h : pyStrip rawText ≠ []) :
    structure_text true rawText .authError = defaultTagged "auth_error" ∧
    structure_text true rawText .rateLimitError = defaultTagged "rate_limit_error" ∧
    structure_text true rawText .apiError = defaultTagged "api_error" ∧
    structure_text true rawText .otherError = defaultTagged "unknown_error" ∧
    structure_text true rawText (.ok .parseError) = defaultTagged "json_error" := by
  have hraw : rawText ≠ [] := by
    intro e
    exact h (by rw [e]; rfl)
  have h1 : rawText.isEmpty = false := by
    simpa [List.isEmpty_iff] using hraw
  have h2 : (pyStrip rawText).isEmpty = false := by
    simpa [List.isEmpty_iff] using h
  unfold structure_text
  simp [h1, h2]

/-- Witness for the C2 theorem at a concrete nonempty input. -/
theorem structure_text_absorbs_failures_witness :
    pyStrip "hello".data ≠ [] ∧
    structure_text true "hello".data .authError = defaultTagged "auth_error" :=
  ⟨by decide, (structure_text_absorbs_failures "hello".data (by decide)).1⟩

/-- C7: for raw text longer than the 8000-character budget, the text sent
downstream is the first 5600 characters (70% of the budget), then the
elision marker, then the last 2400 characters (30% of the budget), in that
order; its length is 5600 + len(marker) + 2400. -/
theorem text_to_process_truncation (s : List Char) (h : s.length > 8000) :
    text_to_process s =
      s.take 5600 ++ elisionMarker ++ s.drop (s.length - 2400) ∧
    (text_to_process s).length = 5600 + elisionMarker.length + 2400 ∧
    (text_to_process s).take 5600 = s.take 5600 ∧
    (text_to_process s).drop (5600 + elisionMarker.length) =
      s.drop (s.length - 2400) := by
  have heq : text_to_process s =
      s.take 5600 ++ elisionMarker ++ s.drop (s.length - 2400) := by
    unfold text_to_process
    rw [if_pos h]
  have hlt : (s.take 5600).length = 5600 := by
    rw [List.length_take]
    omega
  have hld : (s.drop (s.length - 2400)).length = 2400 := by
    rw [List.length_drop]
    omega
  refine ⟨heq, ?_, ?_, ?_⟩
  · rw [heq]
    simp only [List.length_append, hlt, hld]
  · rw [heq,
      List.take_append_of_le_length
        (by rw [List.length_append, hlt]; exact Nat.le_add_right _ _),
      List.take_append_of_le_length hlt.ge, List.take_of_length_le hlt.le]
  · rw [heq, List.drop_left' (by rw [List.length_append, hlt])]

/-- Witness for the C7 theorem: a raw text of length 20000 (the length used
by the claim) exceeds the budget and is truncated as claimed. -/
theorem text_to_process_truncation_witness :
    (List.replicate 20000 'a').length > 8000 ∧
    (text_to_process (List.replicate 20000 'a')).length =
      5600 + elisionMarker.length + 2400 :=
  ⟨by rw [List.length_replicate]; omega,
   (text_to_process_truncation (List.replicate 20000 'a')
     (by rw [List.length_replicate]; omega)).2.1⟩

/-- C8: `generate_document_summary` returns the empty string for no
summaries; for exactly one summary it returns that summary verbatim with no
external call made; for two or more summaries, on external-call failure it
returns the fallback "Document with N pages. " plus the first summary (the
call was made, but no error propagates — the result is a plain string). -/
theorem generate_document_summary_cases :
    (∀ o : SummOutcome, generate_document_summary [] o = ("", false)) ∧
    (∀ (s : String) (o : SummOutcome),
      generate_document_summary [s] o = (s, false)) ∧
    (∀ (s1 s2 : String) (rest : List String),
      generate_document_summary (s1 :: s2 :: rest) .failure =
        ("Document with " ++ toString (s1 :: s2 :: rest).length ++ " pages. " ++ s1,
         true)) := by
  refine ⟨fun o => rfl, fun s o => rfl, fun s1 s2 rest => rfl⟩

theorem scanPages_min (ts : List (List Char)) :
    ∀ n, scanPages ts (min n ts.length) =
      (ts.take n).any (fun t => is_text_scannable (pyStrip t).length 50) := by
  induction ts with
  | nil =>
      intro n
      simp only [List.length_nil, Nat.min_zero]
      cases n <;> simp [scanPages]
  | cons t ts ih =>
      intro n
      cases n with
      | zero => simp [scanPages]
      | succ n =>
          rw [List.length_cons, Nat.succ_min_succ, scanPages, List.take_succ_cons,
            List.any_cons, ih n]
          by_cases hp : (pyStrip t).length < 50
          · simp [is_text_scannable, hp]
          · simp [is_text_scannable, hp]

/-- C9: `_needs_ocr` returns `true` when document inspection fails; for a
readable document it samples the first `min(3, len(doc))` pages and returns
`true` exactly when some sampled page's (stripped) extracted text is
shorter than 50 characters; and the per-page decision `is_text_scannable`
holds exactly when the length is below the threshold. -/
theorem needs_ocr_spec :
    needs_ocr Option.none = true ∧
    (∀ ts : List (List Char),
      needs_ocr (Option.some ts) =
        (ts.take 3).any (fun t => is_text_scannable (pyStrip t).length 50)) ∧
    (∀ l t : Nat, is_text_scannable l t = true ↔ l < t) := by
  refine ⟨rfl, fun ts => ?_, fun l t => ?_⟩
  · rw [needs_ocr, scanPages_min ts 3]
  · simp [is_text_scannable]

theorem fromKeysList_append {α : Type} [DecidableEq α] (l : List α) (a : α) :
    fromKeysList (l ++ [a]) =
      if a ∈ fromKeysList l then fromKeysList l else fromKeysList l ++ [a] := by
  simp [fromKeysList, List.foldl_append]

theorem fromKeysList_eq_dedup_reverse {α : Type} [DecidableEq α] (l : List α) :
    fromKeysList l = (l.reverse.dedup).reverse := by
  induction l using List.reverseRecOn with
  | nil => rfl
  | append_singleton l a ih =>
      rw [fromKeysList_append, List.reverse_append]
      simp only [List.reverse_singleton, List.singleton_append]
      by_cases hm : a ∈ l
      · have hm1 : a ∈ fromKeysList l := by
          rw [ih, List.mem_reverse, List.mem_dedup, List.mem_reverse]
          exact hm
        rw [if_pos hm1, List.dedup_cons_of_mem (by rwa [List.mem_reverse]), ih]
      · have hm1 : a ∉ fromKeysList l := by
          rw [ih, List.mem_reverse, List.mem_dedup, List.mem_reverse]
          exact hm
        rw [if_neg hm1, List.dedup_cons_of_not_mem (by rwa [List.mem_reverse]),
          List.reverse_cons, ih]

/-- C6: document-level keywords are the page-contributed keywords
deduplicated by first occurrence in traversal order and capped to the first
30 unique values.  `(l.reverse.dedup).reverse` is first-occurrence dedup
(Mathlib's `dedup` keeps last occurrences); the result is duplicate-free,
order-preserving (a sublist of the input), and at most 30 long; and on the
claim's example it is `["a", "b", "c"]`. -/
theorem unique_keywords_spec :
    unique_keywords ["a", "b", "a", "c"] = ["a", "b", "c"] ∧
    ∀ l : List String,
      unique_keywords l = ((l.reverse.dedup).reverse.take 30) ∧
      (unique_keywords l).Nodup ∧
      (unique_keywords l).length ≤ 30 ∧
      (unique_keywords l).Sublist l := by
  refine ⟨by decide, fun l => ?_⟩
  have he : unique_keywords l = ((l.reverse.dedup).reverse.take 30) := by
    rw [unique_keywords, fromKeysList_eq_dedup_reverse]
  have hsub : (unique_keywords l).Sublist l := by
    rw [he]
    exact ((l.reverse.dedup.reverse.take_sublist 30).trans
      ((l.reverse.dedup_sublist).reverse.trans (by rw [List.reverse_reverse])))
  refine ⟨he, ?_, ?_, hsub⟩
  · rw [he]
    exact (l.reverse.dedup.reverse.take_sublist 30).nodup
      (List.nodup_reverse.mpr l.reverse.nodup_dedup)
  · rw [he, List.length_take]
    exact Nat.min_le_left _ _

theorem aggStep_skip (u : Unified) (p : Page)
    (h : lacksRecord p.structured_data = true) : aggStep u p = u := by
  unfold aggStep
  match hv : p.structured_data with
  | .dict d =>
      rw [hv, lacksRecord] at h
      simp [h]
  | .str _ => rfl
  | .int _ => rfl
  | .bool _ => rfl
  | .none => rfl
  | .list _ => rfl

theorem aggStep_wf (u : Unified) (p : Page)
    (h : well_formed_record p.structured_data = true) :
    aggStep u p = Unified.mk
      (u.all_sections ++ sdSections p.structured_data)
      (u.all_measurements ++ sdMeasurements p.structured_data)
      (dictUpdate u.all_key_fields (sdKeyFields p.structured_data))
      (u.all_tables ++ sdTables p.structured_data) := by
  match hv : p.structured_data with
  | .dict d =>
      rw [hv, well_formed_record] at h
      simp only [Bool.and_eq_true, Bool.not_eq_true'] at h
      obtain ⟨⟨⟨⟨hne, hsec⟩, hmeas⟩, hkf⟩, htab⟩ := h
      unfold aggStep
      rw [hv]
      simp only [sdSections, sdMeasurements, sdKeyFields, sdTables]
      rw [if_neg (by rw [hne]; exact Bool.false_ne_true)]
      cases hsecv : dictGetD d "sections" (.list []) <;>
        rw [hsecv] at hsec <;> try exact Bool.noConfusion hsec
      cases hmeasv : dictGetD d "measurements" (.list []) <;>
        rw [hmeasv] at hmeas <;> try exact Bool.noConfusion hmeas
      cases hkfv : dictGetD d "key_fields" (.dict []) <;>
        rw [hkfv] at hkf <;> try exact Bool.noConfusion hkf
      cases htabv : dictGetD d "tables" (.list []) <;>
        rw [htabv] at htab <;> try exact Bool.noConfusion htab
  | .str s =>
      rw [hv] at h
      exact absurd h Bool.false_ne_true
  | .int n =>
      rw [hv] at h
      exact absurd h Bool.false_ne_true
  | .bool b =>
      rw [hv] at h
      exact absurd h Bool.false_ne_true
  | .none =>
      rw [hv] at h
      exact absurd h Bool.false_ne_true
  | .list l =>
      rw [hv] at h
      exact absurd h Bool.false_ne_true

theorem sortPages_sorted (pages : List Page) :
    List.Pairwise (fun a b : Page => a.page_num ≤ b.page_num)
      (sortPages pages) := by
  unfold sortPages
  have hs := @List.sorted_mergeSort Page
    (fun a b => a.page_num ≤ b.page_num)
    (fun a b c h1 h2 => by
      simp only [decide_eq_true_eq] at h1 h2 ⊢
      omega)
    (fun a b => by simpa using Nat.le_total a.page_num b.page_num)
    pages
  exact hs.imp (fun h => by simpa using h)

theorem sortPages_pair :
    sortPages [invoicePage 7 "2024-02-01", invoicePage 3 "2024-01-01"] =
      [invoicePage 3 "2024-01-01", invoicePage 7 "2024-02-01"] := by
  rw [sortPages, List.mergeSort]
  simp [invoicePage, List.merge]

theorem aggStep_eq (u : Unified) (p : Page) :
    aggStep u p = Unified.mk
      (u.all_sections ++ sdSections p.structured_data)
      (u.all_measurements ++ sdMeasurements p.structured_data)
      (dictUpdate u.all_key_fields (sdKeyFields p.structured_data))
      (u.all_tables ++ sdTables p.structured_data) := by
  match hv : p.structured_data with
  | .dict d =>
      by_cases he : d.isEmpty = true
      · have hd : d = [] := List.isEmpty_iff.mp he
        subst hd
        unfold aggStep
        rw [hv]
        simp [sdSections, sdMeasurements, sdKeyFields, sdTables,
          dictGetD, dictGet, List.find?, dictUpdate]
      · unfold aggStep
        rw [hv]
        simp only [sdSections, sdMeasurements, sdKeyFields, sdTables]
        rw [if_neg he]
        cases hsec : dictGetD d "sections" (.list []) <;>
          cases hmeas : dictGetD d "measurements" (.list []) <;>
            cases hkf : dictGetD d "key_fields" (.dict []) <;>
              cases htab : dictGetD d "tables" (.list []) <;>
                simp [dictUpdate]
  | .str a =>
      unfold aggStep
      rw [hv]
      simp [sdSections, sdMeasurements, sdKeyFields, sdTables, dictUpdate]
  | .int a =>
      unfold aggStep
      rw [hv]
      simp [sdSections, sdMeasurements, sdKeyFields, sdTables, dictUpdate]
  | .bool a =>
      unfold aggStep
      rw [hv]
      simp [sdSections, sdMeasurements, sdKeyFields, sdTables, dictUpdate]
  | .none =>
      unfold aggStep
      rw [hv]
      simp [sdSections, sdMeasurements, sdKeyFields, sdTables, dictUpdate]
  | .list a =>
      unfold aggStep
      rw [hv]
      simp [sdSections, sdMeasurements, sdKeyFields, sdTables, dictUpdate]

theorem foldAgg_all (l : List Page) : ∀ u : Unified,
    l.foldl aggStep u = Unified.mk
      (u.all_sections ++
        (l.map (fun p => sdSections p.structured_data)).flatten)
      (u.all_measurements ++
        (l.map (fun p => sdMeasurements p.structured_data)).flatten)
      (l.foldl (fun acc p => dictUpdate acc (sdKeyFields p.structured_data))
        u.all_key_fields)
      (u.all_tables ++
        (l.map (fun p => sdTables p.structured_data)).flatten) := by
  induction l with
  | nil =>
      intro u
      simp
  | cons p l ih =>
      intro u
      rw [List.foldl_cons, aggStep_eq, ih]
      simp [List.append_assoc]

/-- C5 counterexample: a page holding a non-empty record that is NOT well
formed (its `sections` field is the integer 5, its `measurements` field a
list) is not skipped silently — the aggregation merges it field-wise: its
well-typed `measurements` list is concatenated onto the aggregate while the
ill-typed `sections` field is dropped, so the aggregate changes. -/
theorem create_document_structure_mixed_counterexample :
    well_formed_record mixedPage.structured_data = false ∧
    lacksRecord mixedPage.structured_data = false ∧
    (create_document_structure [mixedPage]).all_measurements =
      [PyVal.str "m"] ∧
    (create_document_structure [mixedPage]).all_sections = [] ∧
    aggStep (Unified.mk [] [] [] []) mixedPage ≠ Unified.mk [] [] [] [] := by
  have hs : sortPages [mixedPage] = [mixedPage] := by
    simp [sortPages]
  refine ⟨rfl, rfl, ?_, ?_, ?_⟩
  · rw [create_document_structure, hs]
    rfl
  · rw [create_document_structure, hs]
    rfl
  · intro h
    have h2 : ([PyVal.str "m"] : List PyVal) = [] :=
      congrArg Unified.all_measurements h
    exact List.cons_ne_nil _ _ h2

/-- C5 (amended): `create_document_structure` folds the pages in ascending
`page_num` order, merging every page field-wise with no error: each page
contributes its `sections`, `measurements` and `tables` entries exactly
when the corresponding field is a list (concatenated in order, no
deduplication) and its `key_fields` exactly when that field is a mapping
(key-wise overwrite, later pages win — for `invoice_date` on pages 3 and 7
the aggregate holds page 7's value).  A page with a well-formed record
therefore contributes all four fields, and a page lacking a structured
record (falsy value or non-dict) is skipped silently; but a non-empty
ill-typed record is merged field-by-field, not skipped. -/
theorem create_document_structure_merge :
    (∀ pages : List Page,
      List.Pairwise (fun a b : Page => a.page_num ≤ b.page_num)
        (sortPages pages) ∧
      List.Perm (sortPages pages) pages ∧
      create_document_structure pages = Unified.mk
        (((sortPages pages).map
          (fun p => sdSections p.structured_data)).flatten)
        (((sortPages pages).map
          (fun p => sdMeasurements p.structured_data)).flatten)
        ((sortPages pages).foldl
          (fun acc p => dictUpdate acc (sdKeyFields p.structured_data)) [])
        (((sortPages pages).map
          (fun p => sdTables p.structured_data)).flatten)) ∧
    (∀ (u : Unified) (p : Page), well_formed_record p.structured_data = true →
      aggStep u p = Unified.mk
        (u.all_sections ++ sdSections p.structured_data)
        (u.all_measurements ++ sdMeasurements p.structured_data)
        (dictUpdate u.all_key_fields (sdKeyFields p.structured_data))
        (u.all_tables ++ sdTables p.structured_data)) ∧
    (∀ (u : Unified) (p : Page), lacksRecord p.structured_data = true →
      aggStep u p = u) ∧
    dictGet (create_document_structure
        [invoicePage 7 "2024-02-01", invoicePage 3 "2024-01-01"]).all_key_fields
      "invoice_date" = Option.some (.str "2024-02-01") := by
  refine ⟨fun pages =>
    ⟨sortPages_sorted pages, List.mergeSort_perm pages _, ?_⟩,
    aggStep_wf, aggStep_skip, ?_⟩
  · rw [create_document_structure, foldAgg_all]
    simp
  · rw [create_document_structure, sortPages_pair]
    rfl

/-- Witness for the amended C5 theorem: the well-formed-record clause at a
concrete invoice page and the skip clause at a concrete page whose
structured data is the empty dict written at ingestion. -/
theorem create_document_structure_merge_witness :
    well_formed_record (invoicePage 3 "2024-01-01").structured_data = true ∧
    aggStep (Unified.mk [] [] [] []) (invoicePage 3 "2024-01-01") = Unified.mk
      ([] ++ sdSections (invoicePage 3 "2024-01-01").structured_data)
      ([] ++ sdMeasurements (invoicePage 3 "2024-01-01").structured_data)
      (dictUpdate [] (sdKeyFields (invoicePage 3 "2024-01-01").structured_data))
      ([] ++ sdTables (invoicePage 3 "2024-01-01").structured_data) ∧
    lacksRecord (Page.mk 4 [] "raw" (.str "") (.list [])
      (.dict [])).structured_data = true ∧
    aggStep (Unified.mk [] [] [] [])
      (Page.mk 4 [] "raw" (.str "") (.list []) (.dict [])) =
      Unified.mk [] [] [] [] :=
  ⟨rfl,
   create_document_structure_merge.2.1 (Unified.mk [] [] [] [])
     (invoicePage 3 "2024-01-01") rfl,
   rfl,
   create_document_structure_merge.2.2.1 (Unified.mk [] [] [] [])
     (Page.mk 4 [] "raw" (.str "") (.list []) (.dict [])) rfl⟩

theorem stepPage_some (oracle : Nat → CallOutcome) (a a' : BatchAcc) (p : Page)
    (h : stepPage oracle a p = Option.some a') :
    a' = BatchAcc.mk (a.pages ++ [page_transform oracle p])
      (a.summaries ++ summary_contrib oracle p)
      (a.kwords ++ keyword_contrib oracle p)
      (a.submitted ++ submit_contrib p) := by
  unfold stepPage at h
  unfold page_transform summary_contrib keyword_contrib submit_contrib
  by_cases hs : skip_rule p = true
  · have ht : p.page_summary.truthy = true := by
      have := hs
      unfold skip_rule at this
      exact (Bool.and_eq_true _ _ |>.mp this).2
    rw [if_pos hs] at h
    rw [if_pos hs, if_pos hs, if_pos hs, if_pos hs]
    rw [ht] at h
    by_cases hk : p.keywords.truthy = true
    · rw [if_pos hk] at h
      rw [if_pos hk]
      cases hit : pyIterElems p.keywords with
      | none => rw [hit] at h; exact Option.noConfusion h
      | some els =>
          rw [hit] at h
          rw [← Option.some.inj h]
          simp [ht]
    · rw [if_neg hk] at h
      rw [if_neg hk]
      rw [← Option.some.inj h]
      simp [ht]
  · rw [if_neg hs] at h
    rw [if_neg hs, if_neg hs, if_neg hs, if_neg hs]
    simp only at h
    by_cases h1 : ((dictGetD (structure_text true p.raw_text (oracle p.page_num))
        "summary" (.str "")).truthy &&
        !pySliceable (dictGetD (structure_text true p.raw_text (oracle p.page_num))
          "summary" (.str ""))) = true
    · rw [if_pos h1] at h
      exact Option.noConfusion h
    · rw [if_neg h1] at h
      by_cases h2 : ((dictGetD (structure_text true p.raw_text (oracle p.page_num))
          "keywords" (.list [])).truthy &&
          !pyJoinOk (dictGetD (structure_text true p.raw_text (oracle p.page_num))
            "keywords" (.list []))) = true
      · rw [if_pos h2] at h
        exact Option.noConfusion h
      · rw [if_neg h2] at h
        cases hit : pyIterElems (dictGetD
            (structure_text true p.raw_text (oracle p.page_num))
            "keywords" (.list [])) with
        | none => rw [hit] at h; exact Option.noConfusion h
        | some els =>
            rw [hit] at h
            rw [← Option.some.inj h]
            simp

theorem foldl_batch_none (oracle : Nat → CallOutcome) (l : List Page) :
    l.foldl (fun acc p => acc.bind (fun a => stepPage oracle a p))
      Option.none = Option.none := by
  induction l with
  | nil => rfl
  | cons p l ih => simpa using ih

theorem foldl_batch_char (oracle : Nat → CallOutcome) (l : List Page) :
    ∀ (a r : BatchAcc),
    l.foldl (fun acc p => acc.bind (fun a => stepPage oracle a p))
      (Option.some a) = Option.some r →
    r = BatchAcc.mk (a.pages ++ l.map (page_transform oracle))
      (a.summaries ++ (l.map (summary_contrib oracle)).flatten)
      (a.kwords ++ (l.map (keyword_contrib oracle)).flatten)
      (a.submitted ++ (l.map submit_contrib).flatten) := by
  induction l with
  | nil =>
      intro a r h
      simp only [List.foldl_nil, Option.some.injEq] at h
      subst h
      simp
  | cons p l ih =>
      intro a r h
      rw [List.foldl_cons] at h
      simp only [Option.some_bind] at h
      cases h1 : stepPage oracle a p with
      | none =>
          rw [h1] at h
          rw [foldl_batch_none] at h
          exact Option.noConfusion h
      | some a1 =>
          rw [h1] at h
          have ha1 := stepPage_some oracle a a1 p h1
          have hr := ih a1 r h
          rw [hr, ha1]
          simp [List.append_assoc]

theorem process_document_char (oracle : Nat → CallOutcome) (pages : List Page)
    (r : RunResult) (h : process_document true oracle pages = Option.some r) :
    r.pages = pages.map (page_transform oracle) ∧
    r.summaries = (pages.map (summary_contrib oracle)).flatten ∧
    r.kwords = (pages.map (keyword_contrib oracle)).flatten ∧
    r.submitted = (pages.map submit_contrib).flatten ∧
    r.metadataInvoked = !r.summaries.isEmpty := by
  unfold process_document at h
  simp only [Bool.not_true, Bool.false_eq_true, if_false] at h
  cases pages with
  | nil =>
      simp only [List.isEmpty_nil, if_true, Option.some.injEq] at h
      subst h
      simp
  | cons p l =>
      simp only [List.isEmpty_cons, if_false, Bool.false_eq_true] at h
      cases hf : (p :: l).foldl
          (fun acc q => acc.bind (fun a => stepPage oracle a q))
          (Option.some (BatchAcc.mk [] [] [] [])) with
      | none =>
          rw [hf] at h
          exact Option.noConfusion h
      | some a =>
          rw [hf] at h
          have ha := foldl_batch_char oracle (p :: l) (BatchAcc.mk [] [] [] []) a hf
          simp only [Option.map_some'] at h
          have hr : r = RunResult.mk a.pages a.summaries a.kwords a.submitted
              (!a.summaries.isEmpty) := (Option.some.inj h).symm
          rw [hr, ha]
          simp

/-- C3 counterexample: in a run where page 1 yields summary "S1" and page 2
fails with the empty summary, the synthesis input passed to the document
summarizer is `["S1", ""]`, not `["S1"]` — the empty summary of a freshly
processed page is NOT excluded (ai_processor.py line 307 appends it
unconditionally); and for a document whose only page fails with an empty
summary, the metadata build IS invoked although no non-empty page summary
exists. -/
theorem process_document_empty_summary_included :
    (process_document true c3Oracle [c3PageOne, c3PageTwo]).map
      (fun r => r.summaries) = Option.some [.str "S1", .str ""] ∧
    (process_document true c3Oracle [c3PageOne, c3PageTwo]).map
      (fun r => r.summaries) ≠ Option.some [.str "S1"] ∧
    (process_document true c3Oracle [c3PageTwo]).map
      (fun r => (r.metadataInvoked, r.summaries)) =
      Option.some (true, [.str ""]) := by
  refine ⟨rfl, ?_, rfl⟩
  intro h
  rw [show (process_document true c3Oracle [c3PageOne, c3PageTwo]).map
      (fun r => r.summaries) = Option.some [.str "S1", .str ""] from rfl] at h
  have h2 := congrArg (fun o => (Option.map List.length o)) h
  simp at h2

/-- C3 (amended): the document-level metadata build is invoked exactly when
the collected summary list is non-empty, and that list — the synthesis
input passed to the summarizer — contains, in page order, the stored
(necessarily non-empty) summary of every skipped page and the extracted
summary of every freshly processed page, INCLUDING empty summaries from
failed pages. -/
theorem process_document_summary_collection
    (oracle : Nat → CallOutcome) (pages : List Page) (r : RunResult)
    (h : process_document true oracle pages = Option.some r) :
    r.metadataInvoked = !r.summaries.isEmpty ∧
    r.summaries = (pages.map (summary_contrib oracle)).flatten := by
  obtain ⟨_, h2, _, _, h5⟩ := process_document_char oracle pages r h
  exact ⟨h5, h2⟩

/-- Witness for the amended C3 theorem at the concrete one-page run. -/
theorem process_document_summary_collection_witness :
    c3Run.metadataInvoked = !c3Run.summaries.isEmpty ∧
    c3Run.summaries = ([c3PageTwo].map (summary_contrib c3Oracle)).flatten :=
  process_document_summary_collection c3Oracle [c3PageTwo] c3Run (by rfl)

theorem submit_flatten (l : List Page) :
    (l.map submit_contrib).flatten =
      (l.filter (fun p => !skip_rule p)).map (fun p => p.page_num) := by
  induction l with
  | nil => rfl
  | cons p l ih =>
      by_cases hs : skip_rule p = true
      · simp [submit_contrib, hs, List.filter_cons, ih]
      · simp only [Bool.not_eq_true] at hs
        simp [submit_contrib, hs, List.filter_cons, ih]

theorem page_transform_num (oracle : Nat → CallOutcome) (p : Page) :
    (page_transform oracle p).page_num = p.page_num := by
  unfold page_transform
  by_cases hs : skip_rule p = true
  · rw [if_pos hs]
  · rw [if_neg hs]
    rfl

theorem page_transform_skip (oracle : Nat → CallOutcome) (p : Page)
    (h : skip_rule p = true) : page_transform oracle p = p := by
  unfold page_transform
  rw [if_pos h]

theorem page_num_not_submitted (l : List Page) (p : Page)
    (hnd : (l.map (fun q => q.page_num)).Nodup) (hp : p ∈ l)
    (hs : skip_rule p = true) :
    p.page_num ∉ (l.filter (fun q => !skip_rule q)).map (fun q => q.page_num) := by
  intro hmem
  obtain ⟨q, hqf, hqe⟩ := List.mem_map.mp hmem
  obtain ⟨hql, hqs⟩ := List.mem_filter.mp hqf
  have hpq : q = p := List.inj_on_of_nodup_map hnd hql hp hqe
  rw [hpq] at hqs
  simp [hs] at hqs

theorem transform_preserves_nums (oracle : Nat → CallOutcome) (l : List Page) :
    (l.map (page_transform oracle)).map (fun q => q.page_num) =
      l.map (fun q => q.page_num) := by
  rw [List.map_map]
  exact List.map_congr_left (fun p _ => page_transform_num oracle p)

/-- C4: during a batch run, a page is submitted to the structuring call if
and only if NOT (its status is `structured` AND its stored summary is
truthy/non-empty); a page with status `structured` and empty summary IS
submitted; and a page with status `structured` and non-empty summary is not
submitted in this run, is left unchanged, and (given unique page numbers)
is not submitted in a repeated run over the resulting pages either. -/
theorem process_document_skip_rule
    (oracle : Nat → CallOutcome) (pages : List Page) (r : RunResult)
    (hnd : (pages.map (fun q => q.page_num)).Nodup)
    (h : process_document true oracle pages = Option.some r) :
    (r.submitted = (pages.filter
      (fun p => !(p.status == "structured" && p.page_summary.truthy))).map
      (fun p => p.page_num)) ∧
    (∀ p ∈ pages, p.status = "structured" → p.page_summary = PyVal.str "" →
      p.page_num ∈ r.submitted) ∧
    (∀ p ∈ pages, (p.status == "structured" && p.page_summary.truthy) = true →
      p.page_num ∉ r.submitted ∧ p ∈ r.pages ∧
      ∀ (oracle2 : Nat → CallOutcome) (r2 : RunResult),
        process_document true oracle2 r.pages = Option.some r2 →
        p.page_num ∉ r2.submitted) := by
  obtain ⟨h1, _, _, h4, _⟩ := process_document_char oracle pages r h
  have hsub : r.submitted = (pages.filter (fun p => !skip_rule p)).map
      (fun p => p.page_num) := by
    rw [h4, submit_flatten]
  refine ⟨hsub, ?_, ?_⟩
  · intro p hp hst hsum
    rw [hsub]
    have htr : PyVal.truthy (PyVal.str "") = false := rfl
    have hskip : skip_rule p = false := by
      unfold skip_rule
      rw [hsum, htr, Bool.and_false]
    refine List.mem_map.mpr ⟨p, List.mem_filter.mpr ⟨hp, by rw [hskip]; rfl⟩, rfl⟩
  · intro p hp hsk
    have hskip : skip_rule p = true := hsk
    refine ⟨?_, ?_, ?_⟩
    · rw [hsub]
      exact page_num_not_submitted pages p hnd hp hskip
    · rw [h1]
      have : page_transform oracle p = p := page_transform_skip oracle p hskip
      exact this ▸ List.mem_map_of_mem (page_transform oracle) hp
    · intro oracle2 r2 h2
      obtain ⟨_, _, _, h24, _⟩ := process_document_char oracle2 r.pages r2 h2
      have hnd2 : (r.pages.map (fun q => q.page_num)).Nodup := by
        rw [h1, transform_preserves_nums]
        exact hnd
      have hp2 : p ∈ r.pages := by
        rw [h1]
        have : page_transform oracle p = p := page_transform_skip oracle p hskip
        exact this ▸ List.mem_map_of_mem (page_transform oracle) hp
      rw [h24, submit_flatten]
      exact page_num_not_submitted r.pages p hnd2 hp2 hskip

/-- Witness for the C4 theorem: in the concrete run, the structured page
with the empty summary (page 2) is re-submitted and the structured page
with the non-empty summary (page 1) is not. -/
theorem process_document_skip_rule_witness :
    ([c4PageDone, c4PageEmpty].map (fun q => q.page_num)).Nodup ∧
    (2 : Nat) ∈ c4Run.submitted ∧ (1 : Nat) ∉ c4Run.submitted :=
  ⟨by decide,
   (process_document_skip_rule c4Oracle [c4PageDone, c4PageEmpty] c4Run
     (by decide) rfl).2.1 c4PageEmpty (by simp) rfl rfl,
   ((process_document_skip_rule c4Oracle [c4PageDone, c4PageEmpty] c4Run
     (by decide) rfl).2.2 c4PageDone (by simp) rfl).1⟩

/-- C10: when no credential is configured, `process_document` persists every
page with status `structured`, the plain default structure (whose
`processing_status` is `"failed"`, not `"no_api_key"`), and the non-empty
sentinel summary; consequently a subsequent run — here with a credential
configured and an arbitrary oracle — skips every page: nothing is submitted
to the structuring call and the pages are left unchanged. -/
theorem process_document_no_api_key
    (pages : List Page) (o o2 : Nat → CallOutcome) (r1 r2 : RunResult)
    (h1 : process_document false o pages = Option.some r1)
    (h2 : process_document true o2 r1.pages = Option.some r2) :
    r1.pages = pages.map no_key_page ∧
    dictGet default_structure "processing_status" =
      Option.some (.str "failed") ∧
    (∀ p ∈ r1.pages, p.status = "structured" ∧
      p.page_summary = .str noKeySummary ∧
      p.structured_data = .dict default_structure ∧ p.keywords = .list []) ∧
    r2.submitted = [] ∧ r2.pages = r1.pages := by
  rw [show process_document false o pages =
      Option.some (RunResult.mk (pages.map no_key_page) [] [] [] false)
    from rfl] at h1
  have hr1 : r1 = RunResult.mk (pages.map no_key_page) [] [] [] false :=
    (Option.some.inj h1).symm
  have hskipall : ∀ p ∈ r1.pages, skip_rule p = true := by
    intro p hp
    rw [hr1] at hp
    obtain ⟨q, _, hq⟩ := List.mem_map.mp hp
    rw [← hq]
    rfl
  obtain ⟨h21, _, _, h24, _⟩ := process_document_char o2 r1.pages r2 h2
  refine ⟨by rw [hr1], rfl, ?_, ?_, ?_⟩
  · intro p hp
    rw [hr1] at hp
    obtain ⟨q, _, hq⟩ := List.mem_map.mp hp
    rw [← hq]
    exact ⟨rfl, rfl, rfl, rfl⟩
  · rw [h24, submit_flatten]
    have hfil : r1.pages.filter (fun p => !skip_rule p) = [] := by
      rw [List.filter_eq_nil_iff]
      intro p hp
      simp [hskipall p hp]
    rw [hfil]
    rfl
  · rw [h21]
    rw [List.map_congr_left
      (fun p hp => page_transform_skip o2 p (hskipall p hp))]
    exact List.map_id r1.pages

/-- Witness for the C10 theorem at the concrete one-page document. -/
theorem process_document_no_api_key_witness :
    c10Run1.pages = [c10Page].map no_key_page ∧
    dictGet default_structure "processing_status" =
      Option.some (.str "failed") ∧
    (∀ p ∈ c10Run1.pages, p.status = "structured" ∧
      p.page_summary = .str noKeySummary ∧
      p.structured_data = .dict default_structure ∧ p.keywords = .list []) ∧
    c10Run2.submitted = [] ∧ c10Run2.pages = c10Run1.pages :=
  process_document_no_api_key [c10Page] c4Oracle c4Oracle c10Run1 c10Run2
    rfl rfl
